import Mathlib

/-
Verification development for the ads-extension-telemetry event-builder core.

The embedding below follows `src/unnamed/part_001` (the current
`telemetryReporter.ts`) and the `TimedAction` class in the second half of
`src/unnamed/part_003` (`timedAction.ts`).  JavaScript objects used as
string-keyed maps are embedded as association lists whose only observations
are per-key lookups; mutation (`Object.assign` into `this`) is embedded by
explicit state passing; code that can raise an exception returns `Except`.
-/

/-- A JavaScript object used as a string-keyed map (`TelemetryEventProperties`
or `TelemetryEventMeasures` in the source).  Only per-key lookups and key
membership are ever observed in this development, so the embedding is an
association list with last-write-wins lookup. -/
abbrev ObjMap (α : Type) := List (String × α)

/-- Lookup in an `ObjMap`.  The LAST entry for a key wins, matching the
embedding of `Object.assign` below, where later writes overwrite earlier
ones. -/
def getLast {α : Type} : ObjMap α → String → Option α
  | [], _ => none
  | (k, v) :: t, key =>
    match getLast t key with
    | some r => some r
    | none => if k = key then some v else none

/-- Embedding of `Object.assign(target, source)`: every entry of `source` is
written into `target`, with the `source` value winning on key collision.  In
JavaScript the write happens in place, keeping the insertion position of an
existing key; since every observation in this development is a `getLast`
lookup (insertion order is never observed), appending the source entries is
observation-equivalent. -/
def objAssign {α : Type} (target source : ObjMap α) : ObjMap α :=
  target ++ source

/-- Lookup after `objAssign`, collision case: the source wins where it has
the key. -/
theorem getLast_append_some {α : Type} {b : ObjMap α} {k : String} {v : α}
    (a : ObjMap α) (h : getLast b k = some v) : getLast (a ++ b) k = some v := by
  induction a with
  | nil => simpa using h
  | cons hd t ih =>
    obtain ⟨k', v'⟩ := hd
    simp [getLast, ih]

/-- Lookup after `objAssign`, no-collision case: the target answers where the
source lacks the key. -/
theorem getLast_append_none {α : Type} {b : ObjMap α} {k : String}
    (a : ObjMap α) (h : getLast b k = none) : getLast (a ++ b) k = getLast a k := by
  induction a with
  | nil => simpa using h
  | cons hd t ih =>
    obtain ⟨k', v'⟩ := hd
    simp [getLast, ih]

/-- Exceptions that the embedded code can raise to its caller. -/
inductive Thrown where
  /-- `new RegExp(pat)` raised a SyntaxError because `pat` is not a valid
  regular expression (for example a lone unmatched parenthesis). -/
  | invalidRegexError
  /-- A property access on `null` or `undefined` raised a TypeError. -/
  | typeError
deriving Repr, DecidableEq

/-- Untyped JavaScript values as far as this code can observe them.  The
`err` constructor stands for an `Error` instance carrying its `message` and
`stack`; `error.stack || two-quotes` folds an undefined stack into the empty
string, so the stack is embedded as a plain `String`. -/
inductive JsValue where
  | undefined
  | null
  | bool (b : Bool)
  | num (n : Int)
  | str (s : String)
  | obj (fields : List (String × JsValue))
  | err (message : String) (stack : String)
deriving Repr, BEq

/-- Embedding of the JavaScript `typeof` operator on the values above.  Note
`typeof null` is the string `object`. -/
def jsTypeof : JsValue → String
  | .undefined => "undefined"
  | .null => "object"
  | .bool _ => "boolean"
  | .num _ => "number"
  | .str _ => "string"
  | .obj _ => "object"
  | .err _ _ => "object"

/-- JavaScript truthiness of a value.  NaN is not representable in the
integer number model, which is adequate for the integral durations and flags
this code handles. -/
def jsTruthy : JsValue → Bool
  | .undefined => false
  | .null => false
  | .bool b => b
  | .num n => n != 0
  | .str s => s != ""
  | .obj _ => true
  | .err _ _ => true

/-- Embedding of a property access `v.k`: throws a TypeError on `null` or
`undefined`, reads the field of an object (missing fields give `undefined`),
reads `message` and `stack` of an `Error`, and gives `undefined` on other
primitives (none of their built-in properties are named by this code). -/
def jsGetField : JsValue → String → Except Thrown JsValue
  | .undefined, _ => .error .typeError
  | .null, _ => .error .typeError
  | .obj fs, k => .ok ((getLast fs k).getD .undefined)
  | .err m s, k =>
    .ok (if k = "message" then .str m else if k = "stack" then .str s else .undefined)
  | _, _ => .ok .undefined

/-- Embedding of the optional-chained `error?.toString()`: short-circuits to
`undefined` on `null`/`undefined`, otherwise the usual string conversion. -/
def jsOptToString : JsValue → JsValue
  | .undefined => .undefined
  | .null => .undefined
  | .bool b => .str (toString b)
  | .num n => .str (toString n)
  | .str s => .str s
  | .obj _ => .str "[object Object]"
  | .err m _ => .str ("Error: " ++ m)

/-- Embedding of the nullish-coalescing `v ?? d`. -/
def jsNullishD (v d : JsValue) : JsValue :=
  match v with
  | .undefined => d
  | .null => d
  | x => x

/-- The process environment the module-level code of part_001 reads:
`process.env` with `USERDNSDOMAIN`, and whether `require` of `azdata`
succeeds (in which case `azdata.version` is the recorded version string). -/
structure JsEnv where
  userDnsDomain : Option String
  adsVersion : Option String

/-- part_001 lines 70-80: the fixed allow-list of internal domain names. -/
def msftInternalDomains : List String :=
  [ "redmond.corp.microsoft.com"
  , "northamerica.corp.microsoft.com"
  , "fareast.corp.microsoft.com"
  , "ntdev.corp.microsoft.com"
  , "wingroup.corp.microsoft.com"
  , "southpacific.corp.microsoft.com"
  , "wingroup.windeploy.ntdev.microsoft.com"
  , "ddnet.microsoft.com"
  , "europe.corp.microsoft.com" ]

/-- part_001 lines 87-97 (`isMsftInternal`): false when `USERDNSDOMAIN` is
absent or empty (falsy), otherwise a case-insensitive comparison against the
fixed domain list. -/
def isMsftInternal (env : JsEnv) : Bool :=
  match env.userDnsDomain with
  | none => false
  | some d =>
    if d = "" then false
    else msftInternalDomains.any (fun msftDomain => d.toLower == msftDomain)

/-- part_001 lines 99-107 (`commonMeasurements`): the one common measurement,
`common.msftInternal`, 1 or 0. -/
def commonMeasurements (env : JsEnv) : ObjMap Int :=
  [("common.msftInternal", if isMsftInternal env then 1 else 0)]

/-- part_001 lines 109-116 (`commonProperties`): when `require` of `azdata`
succeeds, `common.adsversion` records the host version; otherwise the map is
empty. -/
def commonProperties (env : JsEnv) : ObjMap JsValue :=
  match env.adsVersion with
  | some v => [("common.adsversion", JsValue.str v)]
  | none => []

/-- The redaction marker written into the stack at part_001 line 338. -/
def redactionMarker : String := "<REDACTED: error-message>"

/-- Characters that are syntax characters of ECMAScript regular expressions
(anything else in a pattern stands for itself). -/
def regexSpecialChars : List Char :=
  ['^', '$', '\\', '.', '*', '+', '?', '(', ')', '[', ']', '\x7b', '\x7d', '|']

/-- True when the pattern string contains no regular-expression syntax
character, so that as a regular expression it matches exactly its own literal
occurrences. -/
def plainPattern (p : String) : Bool :=
  p.data.all (fun c => !(regexSpecialChars.contains c))

/-- Whether the first character sequence is a leading segment of the second
(structural, so that concrete instances reduce inside the kernel). -/
def isPrefixList : List Char → List Char → Bool
  | [], _ => true
  | _ :: _, [] => false
  | p :: ps, c :: cs => p == c && isPrefixList ps cs

/-- Literal global replacement on character sequences: every leftmost
non-overlapping occurrence of `pat` (assumed non-empty) is replaced by
`marker`, exactly as a global regex replace behaves for a pattern free of
syntax characters.  The fuel argument (instantiated with the subject length)
only makes the recursion structural; it never runs out for non-empty
patterns. -/
def replaceFuel (pat marker : List Char) : Nat → List Char → List Char
  | _, [] => []
  | 0, s => s
  | fuel + 1, c :: rest =>
    if isPrefixList pat (c :: rest) then
      marker ++ replaceFuel pat marker fuel ((c :: rest).drop pat.length)
    else c :: replaceFuel pat marker fuel rest

/-- Whether `pat` occurs as a contiguous subsequence of `s`. -/
def containsSeq : List Char → List Char → Bool
  | pat, [] => pat.isEmpty
  | pat, c :: rest => isPrefixList pat (c :: rest) || containsSeq pat rest

/-- Modelled from the ECMAScript builtins invoked at part_001 lines 337-338:
`stack.replace(new RegExp(pat, g-flag), marker)`.  The modelled pattern
fragment: (1) a pattern free of syntax characters matches exactly its literal
occurrences, so the global replace is the literal global replace; (2) a
leading caret followed by such a pattern matches only at the start of the
subject (the m flag is not set), so at most the leading occurrence is
replaced; (3) a lone unmatched parenthesis is an invalid pattern, so the
`RegExp` constructor raises a SyntaxError.  Patterns outside this fragment
are conservatively mapped to the raising outcome; the only patterns examined
by theorems below are inside the fragment and behave as ECMAScript
prescribes. -/
def jsRegexReplaceAllG (pat s marker : String) : Except Thrown String :=
  if plainPattern pat then
    .ok (match pat.data with
         | [] => s
         | _ :: _ => String.mk (replaceFuel pat.data marker.data s.data.length s.data))
  else
    match pat.data with
    | '^' :: rest =>
      if rest.all (fun c => !(regexSpecialChars.contains c)) then
        .ok (match rest with
             | [] => String.mk (marker.data ++ s.data)
             | _ :: _ =>
               if isPrefixList rest s.data then
                 String.mk (marker.data ++ s.data.drop rest.length)
               else s)
      else .error .invalidRegexError
    | _ => .error .invalidRegexError

/-- The external `VsCodeTelemetryReporter` transport, opaque except for
whether its `sendTelemetryEvent` raises. -/
structure VsReporter where
  sendThrows : Bool
deriving Repr, DecidableEq

/-- What a `send()` call did: the transport invocations it performed (event
name, properties, measurements) and whether an exception escaped to the
caller. -/
structure SendResult where
  calls : List (String × ObjMap JsValue × ObjMap Int)
  raised : Bool

/-- One telemetry event under construction (`TelemetryEventImpl`,
part_001 lines 121-187). -/
structure TelemetryEventImpl where
  reporter : Option VsReporter
  eventName : String
  properties : ObjMap JsValue
  measurements : ObjMap Int

/-- The `TelemetryEventImpl` constructor (part_001 lines 122-131): an absent
map is replaced by a fresh empty one, then the common fields are
`Object.assign`-ed INTO the map - so the common values are the later writes,
and when the caller supplied a map the writes land in the object owned by the
caller (the field aliases the argument). -/
def mkTelemetryEventImpl (env : JsEnv) (reporter : Option VsReporter)
    (eventName : String) (properties : Option (ObjMap JsValue))
    (measurements : Option (ObjMap Int)) : TelemetryEventImpl :=
  { reporter := reporter
  , eventName := eventName
  , properties := objAssign (properties.getD []) (commonProperties env)
  , measurements := objAssign (measurements.getD []) (commonMeasurements env) }

/-- The property object passed by the caller, as the caller sees it AFTER the
`TelemetryEventImpl` constructor ran: line 127 stores the very object in
`this.properties` and line 128 `Object.assign`s the common properties into
it, so the caller object and the event property map are one and the same. -/
def callerPropertiesAfterCreate (env : JsEnv) (eventName : String)
    (p : ObjMap JsValue) : ObjMap JsValue :=
  (mkTelemetryEventImpl env none eventName (some p) none).properties

/-- The measurement object passed by the caller, as the caller sees it AFTER
the `TelemetryEventImpl` constructor ran (lines 129-130, same aliasing). -/
def callerMeasurementsAfterCreate (env : JsEnv) (eventName : String)
    (m : ObjMap Int) : ObjMap Int :=
  (mkTelemetryEventImpl env none eventName none (some m)).measurements

/-- `TelemetryEventImpl.send` (part_001 lines 133-142): the optional chain
`this.reporter?.sendTelemetryEvent(...)` short-circuits when the reporter is
absent; when present the transport is invoked once, inside a try/catch that
swallows a transport exception, so no exception ever escapes. -/
def TelemetryEventImpl.send (ev : TelemetryEventImpl) : SendResult :=
  match ev.reporter with
  | none => { calls := [], raised := false }
  | some _ =>
    { calls := [(ev.eventName, ev.properties, ev.measurements)], raised := false }

/-- part_001 lines 144-147. -/
def TelemetryEventImpl.withAdditionalProperties (ev : TelemetryEventImpl)
    (additionalProperties : ObjMap JsValue) : TelemetryEventImpl :=
  { ev with properties := objAssign ev.properties additionalProperties }

/-- part_001 lines 149-152. -/
def TelemetryEventImpl.withAdditionalMeasurements (ev : TelemetryEventImpl)
    (additionalMeasurements : ObjMap Int) : TelemetryEventImpl :=
  { ev with measurements := objAssign ev.measurements additionalMeasurements }

/-- part_001 lines 154-168 (`withConnectionInfo`): the guard is
`typeof connectionInfo` equal to the string `object` - which `null` also
satisfies, so the two field reads then raise a TypeError on `null`.  On an
object, exactly the two allow-listed fields are assigned (missing fields
assign `undefined`); on a non-object input a diagnostic is logged and the
event is returned unchanged. -/
def TelemetryEventImpl.withConnectionInfo (ev : TelemetryEventImpl)
    (connectionInfo : JsValue) : Except Thrown TelemetryEventImpl :=
  if jsTypeof connectionInfo = "object" then do
    let a ← jsGetField connectionInfo "authenticationType"
    let p ← jsGetField connectionInfo "providerName"
    let newProps := objAssign ev.properties [("authenticationType", a), ("providerName", p)]
    .ok { ev with properties := newProps }
  else
    .ok ev

/-- part_001 lines 170-186 (`withServerInfo`): same `typeof` guard (again
satisfied by `null`, making the first field read raise a TypeError); on an
object the four allow-listed fields are mapped - `isCloud` to the categorical
`connectionType` string, the rest defaulted to the empty string by `??`. -/
def TelemetryEventImpl.withServerInfo (ev : TelemetryEventImpl)
    (serverInfo : JsValue) : Except Thrown TelemetryEventImpl :=
  if jsTypeof serverInfo = "object" then do
    let c ← jsGetField serverInfo "isCloud"
    let sv ← jsGetField serverInfo "serverVersion"
    let se ← jsGetField serverInfo "serverEdition"
    let ee ← jsGetField serverInfo "engineEditionId"
    let connectionType : JsValue :=
      match c with
      | .undefined => .str ""
      | x => if jsTruthy x then .str "Azure" else .str "Standalone"
    let newProps := objAssign ev.properties
      [ ("connectionType", connectionType)
      , ("serverVersion", jsNullishD sv (.str ""))
      , ("serverEdition", jsNullishD se (.str ""))
      , ("serverEngineEdition", jsNullishD ee (.str "")) ]
    .ok { ev with properties := newProps }
  else
    .ok ev

/-- The Reporter (part_001 lines 189-389).  Its only state is the transport
reference, which stays `undefined` when transport construction failed. -/
structure TelemetryReporter where
  telemetryReporter : Option VsReporter

/-- The `TelemetryReporter` constructor (part_001 lines 199-206): transport
construction runs inside a try/catch, so a throwing transport constructor
leaves the field `undefined` (the Degraded state) after logging once, and the
Reporter constructor itself never raises. -/
def mkTelemetryReporter (transportCtor : Except Unit VsReporter) : TelemetryReporter :=
  match transportCtor with
  | .ok t => { telemetryReporter := some t }
  | .error _ => { telemetryReporter := none }

/-- part_001 lines 212-216 (`createViewEvent`). -/
def TelemetryReporter.createViewEvent (env : JsEnv) (r : TelemetryReporter)
    (view : String) : TelemetryEventImpl :=
  mkTelemetryEventImpl env r.telemetryReporter "view"
    (some [("view", .str view)]) none

/-- part_001 lines 222-224 (`sendViewEvent`). -/
def TelemetryReporter.sendViewEvent (env : JsEnv) (r : TelemetryReporter)
    (view : String) : SendResult :=
  (TelemetryReporter.createViewEvent env r view).send

/-- part_001 lines 234-242 (`createActionEvent`): the measurement map is
`durationInMs ? { durationInMs: durationInMs } : empty` - an absent argument,
and the falsy number 0 (and NaN, not representable in the integer model),
yield the empty map, so no `durationInMs` key is sent in those cases. -/
def TelemetryReporter.createActionEvent (env : JsEnv) (r : TelemetryReporter)
    (view action : String) (target : String := "") (source : String := "")
    (durationInMs : Option Int := none) : TelemetryEventImpl :=
  let measures : ObjMap Int :=
    match durationInMs with
    | some d => if d = 0 then [] else [("durationInMs", d)]
    | none => []
  mkTelemetryEventImpl env r.telemetryReporter "action"
    (some [ ("view", .str view), ("action", .str action)
          , ("target", .str target), ("source", .str source) ])
    (some measures)

/-- part_001 lines 252-254 (`sendActionEvent`). -/
def TelemetryReporter.sendActionEvent (env : JsEnv) (r : TelemetryReporter)
    (view action : String) (target : String := "") (source : String := "")
    (durationInMs : Option Int := none) : SendResult :=
  (TelemetryReporter.createActionEvent env r view action target source durationInMs).send

/-- part_001 lines 274-276 (`createMetricsEvent`). -/
def TelemetryReporter.createMetricsEvent (env : JsEnv) (r : TelemetryReporter)
    (measurements : ObjMap Int) (groupName : String := "") : TelemetryEventImpl :=
  mkTelemetryEventImpl env r.telemetryReporter "metrics"
    (some [("groupName", .str groupName)]) (some measurements)

/-- part_001 lines 283-285 (`sendMetricsEvent`). -/
def TelemetryReporter.sendMetricsEvent (env : JsEnv) (r : TelemetryReporter)
    (measurements : ObjMap Int) (groupName : String := "") : SendResult :=
  (TelemetryReporter.createMetricsEvent env r measurements groupName).send

/-- part_001 lines 295-302 (`createErrorEvent`). -/
def TelemetryReporter.createErrorEvent (env : JsEnv) (r : TelemetryReporter)
    (view name : String) (errorCode : String := "") (errorType : String := "") :
    TelemetryEventImpl :=
  mkTelemetryEventImpl env r.telemetryReporter "error"
    (some [ ("view", .str view), ("name", .str name)
          , ("errorCode", .str errorCode), ("errorType", .str errorType) ])
    none

/-- part_001 lines 312-314 (`sendErrorEvent`). -/
def TelemetryReporter.sendErrorEvent (env : JsEnv) (r : TelemetryReporter)
    (view name : String) (errorCode : String := "") (errorType : String := "") :
    SendResult :=
  (TelemetryReporter.createErrorEvent env r view name errorCode errorType).send

/-- part_001 lines 325-346 (`createErrorEvent2`).  For an `Error` instance:
the message property is the message when `includeMessage` is true, else the
empty string; the stack is `error.stack || empty`; when the message is not
included and is truthy, `new RegExp(error.message, g-flag)` is built WITHOUT
escaping the message - an invalid pattern makes the `RegExp` constructor
raise a SyntaxError that escapes this method - and every regex match (not
every literal occurrence) in the stack is replaced by the redaction marker.
For a non-`Error`, the message is `error?.toString()` when included, else the
empty string, and the stack is empty. -/
def errorEvent2Props (view name errorCode errorType : String) (error : JsValue)
    (includeMessage : Bool) : Except Thrown (ObjMap JsValue) :=
  let props : ObjMap JsValue :=
    [ ("view", .str view), ("name", .str name)
    , ("errorCode", .str errorCode), ("errorType", .str errorType) ]
  match error with
  | .err msg stk =>
    let props1 := objAssign props [("message", .str (if includeMessage then msg else ""))]
    if includeMessage then .ok (objAssign props1 [("stack", .str stk)])
    else if msg = "" then .ok (objAssign props1 [("stack", .str stk)])
    else
      (jsRegexReplaceAllG msg stk redactionMarker).map
        (fun stack2 => objAssign props1 [("stack", .str stack2)])
  | e =>
    .ok (objAssign props
      [ ("message", if includeMessage then jsOptToString e else .str "")
      , ("stack", .str "") ])

/-- part_001 lines 325-346, continued: the final `new TelemetryEventImpl`
call made once the property map is built (or the propagated exception when
`new RegExp` threw). -/
def TelemetryReporter.createErrorEvent2 (env : JsEnv) (r : TelemetryReporter)
    (view name : String) (error : JsValue := .undefined)
    (includeMessage : Bool := false) (errorCode : String := "")
    (errorType : String := "") : Except Thrown TelemetryEventImpl :=
  (errorEvent2Props view name errorCode errorType error includeMessage).map
    (fun props => mkTelemetryEventImpl env r.telemetryReporter "error" (some props) none)

/-- part_001 lines 357-359 (`sendErrorEvent2`). -/
def TelemetryReporter.sendErrorEvent2 (env : JsEnv) (r : TelemetryReporter)
    (view name : String) (error : JsValue := .undefined)
    (includeMessage : Bool := false) (errorCode : String := "")
    (errorType : String := "") : Except Thrown SendResult :=
  (TelemetryReporter.createErrorEvent2 env r view name error includeMessage
    errorCode errorType).map TelemetryEventImpl.send

/-- part_001 lines 368-370 (`createTelemetryEvent`): the caller maps are
passed straight to the `TelemetryEventImpl` constructor. -/
def TelemetryReporter.createTelemetryEvent (env : JsEnv) (r : TelemetryReporter)
    (eventName : String) (properties : Option (ObjMap JsValue) := none)
    (measurements : Option (ObjMap Int) := none) : TelemetryEventImpl :=
  mkTelemetryEventImpl env r.telemetryReporter eventName properties measurements

/-- part_001 lines 379-381 (`sendTelemetryEvent`). -/
def TelemetryReporter.sendTelemetryEvent (env : JsEnv) (r : TelemetryReporter)
    (eventName : String) (properties : Option (ObjMap JsValue) := none)
    (measurements : Option (ObjMap Int) := none) : SendResult :=
  (TelemetryReporter.createTelemetryEvent env r eventName properties measurements).send

/-- A `TimedAction` (timedAction.ts, second half of part_003): the owning
Reporter, the four action fields, the locally accumulated maps, and the
start timestamp captured at construction. -/
structure TimedAction where
  reporter : TelemetryReporter
  view : String
  action : String
  target : String
  source : String
  properties : ObjMap JsValue
  measures : ObjMap Int
  start : Int

/-- part_001 lines 265-267 with the `TimedAction` constructor (timedAction.ts
lines 268-273): `createTimedAction` forwards the possibly-absent target and
source, which the constructor defaults to the empty string; the local maps
start empty and `start` records the construction time. -/
def TelemetryReporter.createTimedAction (r : TelemetryReporter)
    (view action : String) (target source : Option String) (now : Int) :
    TimedAction :=
  { reporter := r, view := view, action := action
  , target := target.getD "", source := source.getD ""
  , properties := [], measures := [], start := now }

/-- timedAction.ts lines 279-282. -/
def TimedAction.withAdditionalProperties (ta : TimedAction)
    (additionalProperties : ObjMap JsValue) : TimedAction :=
  { ta with properties := objAssign ta.properties additionalProperties }

/-- timedAction.ts lines 288-291. -/
def TimedAction.withAdditionalMeasures (ta : TimedAction)
    (additionalMeasurements : ObjMap Int) : TimedAction :=
  { ta with measures := objAssign ta.measures additionalMeasurements }

/-- timedAction.ts lines 296-301 (`TimedAction.send`): forwards
`(this.view, this.action, this.source, this.target, now - this.start)` - in
that order - to `createActionEvent`, whose parameter order is
`(view, action, target, source, durationInMs)`, then merges the local maps
and sends. -/
def TimedAction.send (env : JsEnv) (ta : TimedAction) (now : Int) : SendResult :=
  ((((TelemetryReporter.createActionEvent env ta.reporter ta.view ta.action
        ta.source ta.target (some (now - ta.start))).withAdditionalProperties
      ta.properties).withAdditionalMeasurements ta.measures)).send

/-- A lookup misses when no entry in the map carries the key. -/
theorem getLast_keys_ne {α : Type} (l : ObjMap α) (k : String)
    (h : ∀ p ∈ l, p.1 ≠ k) : getLast l k = none := by
  induction l with
  | nil => rfl
  | cons hd t ih =>
    obtain ⟨k', v'⟩ := hd
    have ht : getLast t k = none := ih (fun p hp => h p (List.mem_cons_of_mem _ hp))
    have hk : ¬(k' = k) := h (k', v') (List.mem_cons_self _ _)
    simp [getLast, ht, hk]

/-- Reduction of `withConnectionInfo` on an actual object argument: exactly
the two allow-listed fields are assigned into the event property map. -/
theorem withConnectionInfo_obj (ev : TelemetryEventImpl)
    (fields : List (String × JsValue)) :
    ev.withConnectionInfo (.obj fields) =
      .ok (TelemetryEventImpl.mk ev.reporter ev.eventName
        (objAssign ev.properties
          [ ("authenticationType", (getLast fields "authenticationType").getD .undefined)
          , ("providerName", (getLast fields "providerName").getD .undefined) ])
        ev.measurements) := rfl

/-- Every successful `createErrorEvent2` result is an event built by the
`TelemetryEventImpl` constructor with name `error` and no measurement map. -/
theorem createErrorEvent2_ok_shape (env : JsEnv) (r : TelemetryReporter)
    (view name : String) (error : JsValue) (includeMessage : Bool)
    (errorCode errorType : String) (ev : TelemetryEventImpl)
    (h : TelemetryReporter.createErrorEvent2 env r view name error includeMessage
          errorCode errorType = .ok ev) :
    ∃ P, ev = mkTelemetryEventImpl env r.telemetryReporter "error" (some P) none := by
  unfold TelemetryReporter.createErrorEvent2 at h
  cases he : errorEvent2Props view name errorCode errorType error includeMessage with
  | error t => rw [he] at h; exact absurd h (by simp [Except.map])
  | ok P =>
    rw [he] at h
    simp only [Except.map] at h
    injection h with h
    exact ⟨P, h.symm⟩

/-- The environment used by the concrete evaluations below: no
`USERDNSDOMAIN`, `azdata` not available. -/
def env0 : JsEnv := { userDnsDomain := none, adsVersion := none }

/-- A Reporter whose transport construction succeeded (Active state). -/
def reporterA : TelemetryReporter := mkTelemetryReporter (.ok { sendThrows := false })

/-- A Reporter whose transport construction threw (Degraded state). -/
def reporterD : TelemetryReporter := mkTelemetryReporter (.error ())

/-- Observation of an enrichment call that may throw: `none` when the call
raised, otherwise the property lookup on the resulting event. -/
def okPropLookup (r : Except Thrown TelemetryEventImpl) (k : String) :
    Option (Option JsValue) :=
  match r with
  | .ok ev => some (getLast ev.properties k)
  | .error _ => none

/-- C1: `createErrorEvent2(view, name, error, includeMessage=false)` is
claimed to leave `message` empty and to purge every literal occurrence of
`error.message` from the sent stack.  Evaluating the code at the message
`^x`: the unescaped message is compiled as a regular expression whose caret
anchors at the start of the stack string, so nothing matches, the stack is
sent verbatim, and the withheld message text still occurs in it (the final
conjunct counts exactly one occurrence). -/
theorem c1_createErrorEvent2_message_survives_in_stack :
    ∃ ev, TelemetryReporter.createErrorEvent2 env0 reporterA "v" "n"
        (.err "^x" "Error: ^x\n    at main (app.js:1:1)") false "" "" = .ok ev
      ∧ getLast ev.properties "message" = some (.str "")
      ∧ getLast ev.properties "stack"
          = some (.str "Error: ^x\n    at main (app.js:1:1)")
      ∧ containsSeq "^x".data "Error: ^x\n    at main (app.js:1:1)".data = true :=
  ⟨_, rfl, rfl, rfl, rfl⟩

/-- C5: a `TimedAction` built with `target=t, source=s` and sent 100ms later
produces one action event - but with the `target` property holding `s` and
the `source` property holding `t`, because `TimedAction.send` passes
`(this.source, this.target)` into the `(target, source)` parameters of
`createActionEvent`.  The duration measurement is present and correct. -/
theorem c5_timed_action_swaps_target_and_source :
    ∃ P M,
      (TimedAction.send env0
        (TelemetryReporter.createTimedAction reporterA "v" "a" (some "t") (some "s") 0)
        100).calls = [("action", P, M)]
      ∧ getLast P "view" = some (.str "v")
      ∧ getLast P "action" = some (.str "a")
      ∧ getLast P "target" = some (.str "s")
      ∧ getLast P "source" = some (.str "t")
      ∧ getLast M "durationInMs" = some 100 :=
  ⟨_, _, rfl, rfl, rfl, rfl, rfl, rfl⟩

/-- C7: `withConnectionInfo` and `withServerInfo` are claimed to leave the
event unchanged and not to throw on every non-object input.  For strings,
numbers and `undefined` that is what the code does, but `null` satisfies the
`typeof` guard (`typeof null` is `object`) and the subsequent field access
raises a TypeError that escapes to the caller. -/
theorem c7_null_passes_typeof_guard_and_throws :
    (∀ ev : TelemetryEventImpl, ev.withConnectionInfo .null = .error .typeError)
    ∧ (∀ ev : TelemetryEventImpl, ev.withServerInfo .null = .error .typeError)
    ∧ (∀ (ev : TelemetryEventImpl) (s : String), ev.withConnectionInfo (.str s) = .ok ev)
    ∧ (∀ (ev : TelemetryEventImpl) (n : Int), ev.withConnectionInfo (.num n) = .ok ev)
    ∧ (∀ ev : TelemetryEventImpl, ev.withConnectionInfo .undefined = .ok ev)
    ∧ (∀ (ev : TelemetryEventImpl) (s : String), ev.withServerInfo (.str s) = .ok ev) :=
  ⟨fun _ => rfl, fun _ => rfl, fun _ _ => rfl, fun _ _ => rfl, fun _ => rfl,
    fun _ _ => rfl⟩

/-- C9: no public operation is claimed ever to raise - but
`createErrorEvent2` (and `sendErrorEvent2`) with an `Error` whose message is
a lone `(` builds `new RegExp("(")`, whose SyntaxError is not caught and
escapes to the caller. -/
theorem c9_createErrorEvent2_raises_on_unmatched_paren :
    TelemetryReporter.createErrorEvent2 env0 reporterA "v" "n" (.err "(" "Error: (")
        false "" "" = .error .invalidRegexError
    ∧ TelemetryReporter.sendErrorEvent2 env0 reporterA "v" "n" (.err "(" "Error: (")
        false "" "" = .error .invalidRegexError :=
  ⟨rfl, rfl⟩

/-- C2 counterexample: a per-call measurement entry for the common key
`common.msftInternal` is overwritten BY the common value (the constructor
assigns the common fields last), so the sent value is 0, not the explicit
per-call 5 the claim demands. -/
theorem c2_counterexample_common_overwrites_per_call :
    getLast ((TelemetryReporter.createTelemetryEvent env0 reporterA "e" (some [])
        (some [("common.msftInternal", 5)])).measurements) "common.msftInternal"
      = some 0
    ∧ ¬ (getLast ((TelemetryReporter.createTelemetryEvent env0 reporterA "e" (some [])
        (some [("common.msftInternal", 5)])).measurements) "common.msftInternal"
      = some 5) :=
  ⟨rfl, by decide⟩

/-- C4 counterexample: the caller passes an empty measurement object to
`createTelemetryEvent`; after the constructor runs, the object the caller
still holds has gained the `common.msftInternal` entry - it does not hold
exactly the entries it held before. -/
theorem c4_counterexample_caller_map_gains_common_key :
    getLast (callerMeasurementsAfterCreate env0 "e" []) "common.msftInternal" = some 0
    ∧ getLast ([] : ObjMap Int) "common.msftInternal" = none :=
  ⟨rfl, rfl⟩

/-- C8 counterexample: `durationInMs = 0` is supplied explicitly, yet the
falsy check `durationInMs ? ... : ...` discards it, so the measurements
carry no `durationInMs` key - the claim demands `some 0`. -/
theorem c8_counterexample_zero_duration_omitted :
    getLast ((TelemetryReporter.createActionEvent env0 reporterA "v" "a" "t" "s"
        (some 0)).measurements) "durationInMs" = none
    ∧ ¬ (getLast ((TelemetryReporter.createActionEvent env0 reporterA "v" "a" "t" "s"
        (some 0)).measurements) "durationInMs" = some 0) :=
  ⟨rfl, by decide⟩

/-- C8 amended: an absent `durationInMs` argument puts no `durationInMs` key
in the measurements; a supplied non-zero value is carried through; a supplied
0 (falsy, like NaN) is discarded exactly as if it were absent. -/
theorem c8_amended_duration_truthiness (env : JsEnv) (r : TelemetryReporter)
    (view action target source : String) :
    getLast ((TelemetryReporter.createActionEvent env r view action target source
        none).measurements) "durationInMs" = none
    ∧ (∀ d : Int, d ≠ 0 →
        getLast ((TelemetryReporter.createActionEvent env r view action target source
            (some d)).measurements) "durationInMs" = some d)
    ∧ getLast ((TelemetryReporter.createActionEvent env r view action target source
        (some 0)).measurements) "durationInMs" = none := by
  refine ⟨?_, ?_, ?_⟩
  · exact (getLast_append_none ([] : ObjMap Int) (by rfl)).trans rfl
  · intro d hd
    show getLast (objAssign (if d = 0 then [] else [("durationInMs", d)])
        (commonMeasurements env)) "durationInMs" = some d
    rw [if_neg hd]
    exact (getLast_append_none _ (by rfl)).trans rfl
  · exact (getLast_append_none ([] : ObjMap Int) (by rfl)).trans rfl

/-- Witness for C8 amended at the concrete duration 5. -/
theorem c8_amended_witness :
    (5 : Int) ≠ 0
    ∧ getLast ((TelemetryReporter.createActionEvent env0 reporterA "v" "a" "t" "s"
        (some 5)).measurements) "durationInMs" = some 5 :=
  ⟨by decide,
    (c8_amended_duration_truthiness env0 reporterA "v" "a" "t" "s").2.1 5 (by decide)⟩

/-- C4 amended: the `TelemetryEventImpl` constructor stores the caller-owned
maps by reference and writes through them - afterwards the caller object
holds its prior entries with the common fields merged on top (the common
value winning on a key collision), rather than exactly what it held
before. -/
theorem c4_amended_constructor_writes_through_caller_maps (env : JsEnv)
    (eventName : String) (p : ObjMap JsValue) (m : ObjMap Int) (k : String) :
    getLast (callerPropertiesAfterCreate env eventName p) k =
      (match getLast (commonProperties env) k with
       | some v => some v
       | none => getLast p k)
    ∧ getLast (callerMeasurementsAfterCreate env eventName m) k =
      (match getLast (commonMeasurements env) k with
       | some w => some w
       | none => getLast m k) := by
  constructor
  · cases hc : getLast (commonProperties env) k with
    | some v => exact getLast_append_some p hc
    | none => exact getLast_append_none p hc
  · cases hc : getLast (commonMeasurements env) k with
    | some w => exact getLast_append_some m hc
    | none => exact getLast_append_none m hc

/-- C6: `withConnectionInfo` merges exactly the allow-listed fields.  On the
object with `authenticationType`, `providerName` and any extra field, the two
allow-listed keys come out with the given values, the extra key stays absent,
and in general every key other than the two allow-listed ones is left exactly
as it was on the event. -/
theorem c6_connection_info_allow_list (ev : TelemetryEventImpl) (v : JsValue)
    (h : getLast ev.properties "extraField" = none) :
    okPropLookup (ev.withConnectionInfo (.obj
        [ ("authenticationType", .str "AAD"), ("providerName", .str "MSSQL")
        , ("extraField", v) ])) "authenticationType" = some (some (.str "AAD"))
    ∧ okPropLookup (ev.withConnectionInfo (.obj
        [ ("authenticationType", .str "AAD"), ("providerName", .str "MSSQL")
        , ("extraField", v) ])) "providerName" = some (some (.str "MSSQL"))
    ∧ okPropLookup (ev.withConnectionInfo (.obj
        [ ("authenticationType", .str "AAD"), ("providerName", .str "MSSQL")
        , ("extraField", v) ])) "extraField" = some none
    ∧ (∀ (fields : List (String × JsValue)) (k : String),
        k ≠ "authenticationType" → k ≠ "providerName" →
        okPropLookup (ev.withConnectionInfo (.obj fields)) k
          = some (getLast ev.properties k)) := by
  refine ⟨?_, ?_, ?_, ?_⟩
  · rw [withConnectionInfo_obj]
    exact congrArg some (getLast_append_some _ rfl)
  · rw [withConnectionInfo_obj]
    exact congrArg some (getLast_append_some _ rfl)
  · rw [withConnectionInfo_obj]
    exact congrArg some ((getLast_append_none _ (by rfl)).trans h)
  · intro fields k hk1 hk2
    rw [withConnectionInfo_obj]
    refine congrArg some (getLast_append_none _ (getLast_keys_ne _ _ ?_))
    intro q hq
    simp only [List.mem_cons, List.not_mem_nil, or_false] at hq
    rcases hq with rfl | rfl
    · exact Ne.symm hk1
    · exact Ne.symm hk2

/-- Witness for C6 at a freshly created view event (whose property map has no
`extraField` key) and the extra value `x`. -/
theorem c6_witness :
    getLast ((TelemetryReporter.createViewEvent env0 reporterA "home").properties)
        "extraField" = none
    ∧ okPropLookup ((TelemetryReporter.createViewEvent env0 reporterA
        "home").withConnectionInfo (.obj
        [ ("authenticationType", .str "AAD"), ("providerName", .str "MSSQL")
        , ("extraField", .str "x") ])) "authenticationType"
      = some (some (.str "AAD")) :=
  ⟨rfl, (c6_connection_info_allow_list
      (TelemetryReporter.createViewEvent env0 reporterA "home") (.str "x") rfl).1⟩

/-- C10: on every actual object, `withConnectionInfo` writes the keys
`authenticationType` and `providerName` unconditionally - to the field value
when the input carries the field, to `undefined` otherwise - so any value the
event previously held under those keys is overwritten. -/
theorem c10_allow_listed_keys_always_written (ev : TelemetryEventImpl)
    (fields : List (String × JsValue)) :
    okPropLookup (ev.withConnectionInfo (.obj fields)) "authenticationType"
      = some (some ((getLast fields "authenticationType").getD .undefined))
    ∧ okPropLookup (ev.withConnectionInfo (.obj fields)) "providerName"
      = some (some ((getLast fields "providerName").getD .undefined)) := by
  constructor
  · rw [withConnectionInfo_obj]
    exact congrArg some (getLast_append_some _ rfl)
  · rw [withConnectionInfo_obj]
    exact congrArg some (getLast_append_some _ rfl)

/-- C3: on a Reporter whose transport construction failed (the transport
reference is absent), the send of every factory-created event - and of a
`TimedAction` owned by such a Reporter - returns normally, raises nothing,
and performs no transport invocation. -/
theorem c3_degraded_reporter_send_noop (env : JsEnv) (r : TelemetryReporter)
    (h : r.telemetryReporter = none) :
    (∀ view, (TelemetryReporter.createViewEvent env r view).send = ⟨[], false⟩)
    ∧ (∀ view action target source d,
        (TelemetryReporter.createActionEvent env r view action target source
          d).send = ⟨[], false⟩)
    ∧ (∀ m g, (TelemetryReporter.createMetricsEvent env r m g).send = ⟨[], false⟩)
    ∧ (∀ view name ec et,
        (TelemetryReporter.createErrorEvent env r view name ec et).send = ⟨[], false⟩)
    ∧ (∀ view name error incl ec et ev,
        TelemetryReporter.createErrorEvent2 env r view name error incl ec et = .ok ev →
        ev.send = ⟨[], false⟩)
    ∧ (∀ n p m, (TelemetryReporter.createTelemetryEvent env r n p m).send = ⟨[], false⟩)
    ∧ (∀ (ta : TimedAction) (now : Int), ta.reporter = r →
        TimedAction.send env ta now = ⟨[], false⟩) := by
  obtain ⟨tr⟩ := r
  have htr : tr = none := h
  subst htr
  refine ⟨fun view => rfl, fun view action target source d => rfl,
    fun m g => rfl, fun view name ec et => rfl, ?_, fun n p m => rfl, ?_⟩
  · intro view name error incl ec et ev hok
    obtain ⟨P, rfl⟩ :=
      createErrorEvent2_ok_shape env ⟨none⟩ view name error incl ec et ev hok
    rfl
  · intro ta now hta
    show (((TelemetryReporter.createActionEvent env ta.reporter ta.view ta.action
        ta.source ta.target (some (now - ta.start))).withAdditionalProperties
        ta.properties).withAdditionalMeasurements ta.measures).send = ⟨[], false⟩
    rw [hta]
    rfl

/-- Witness for C3 at the concrete degraded Reporter. -/
theorem c3_witness :
    reporterD.telemetryReporter = none
    ∧ (TelemetryReporter.createViewEvent env0 reporterD "home").send = ⟨[], false⟩ :=
  ⟨rfl, (c3_degraded_reporter_send_noop env0 reporterD rfl).1 "home"⟩

/-- Helper: every event built by the `TelemetryEventImpl` constructor carries
a common property at its common value, because the constructor assigns the
common map last. -/
theorem mkEvent_common_property (env : JsEnv) (rep : Option VsReporter)
    (n : String) (p : Option (ObjMap JsValue)) (m : Option (ObjMap Int))
    {k : String} {v : JsValue} (h : getLast (commonProperties env) k = some v) :
    getLast (mkTelemetryEventImpl env rep n p m).properties k = some v :=
  getLast_append_some _ h

/-- Helper: same for a common measurement. -/
theorem mkEvent_common_measurement (env : JsEnv) (rep : Option VsReporter)
    (n : String) (p : Option (ObjMap JsValue)) (m : Option (ObjMap Int))
    {k : String} {w : Int} (h : getLast (commonMeasurements env) k = some w) :
    getLast (mkTelemetryEventImpl env rep n p m).measurements k = some w :=
  getLast_append_some _ h

/-- C2 amended: every event built by any factory method carries every
common-field key, and on a key collision the COMMON value wins over the
explicit per-call value, because the constructor assigns the common fields
last; `send` then hands exactly the event maps to the transport. -/
theorem c2_amended_common_fields_assigned_last (env : JsEnv) :
    (∀ (k : String) (v : JsValue), getLast (commonProperties env) k = some v →
      (∀ r view,
        getLast ((TelemetryReporter.createViewEvent env r view).properties) k = some v)
      ∧ (∀ r view action target source d,
        getLast ((TelemetryReporter.createActionEvent env r view action target
          source d).properties) k = some v)
      ∧ (∀ r m g,
        getLast ((TelemetryReporter.createMetricsEvent env r m g).properties) k = some v)
      ∧ (∀ r view name ec et,
        getLast ((TelemetryReporter.createErrorEvent env r view name ec
          et).properties) k = some v)
      ∧ (∀ r view name error incl ec et ev,
        TelemetryReporter.createErrorEvent2 env r view name error incl ec et = .ok ev →
        getLast ev.properties k = some v)
      ∧ (∀ r n p m,
        getLast ((TelemetryReporter.createTelemetryEvent env r n p m).properties) k
          = some v))
    ∧ (∀ (k : String) (w : Int), getLast (commonMeasurements env) k = some w →
      (∀ r view,
        getLast ((TelemetryReporter.createViewEvent env r view).measurements) k = some w)
      ∧ (∀ r view action target source d,
        getLast ((TelemetryReporter.createActionEvent env r view action target
          source d).measurements) k = some w)
      ∧ (∀ r m g,
        getLast ((TelemetryReporter.createMetricsEvent env r m g).measurements) k
          = some w)
      ∧ (∀ r view name ec et,
        getLast ((TelemetryReporter.createErrorEvent env r view name ec
          et).measurements) k = some w)
      ∧ (∀ r view name error incl ec et ev,
        TelemetryReporter.createErrorEvent2 env r view name error incl ec et = .ok ev →
        getLast ev.measurements k = some w)
      ∧ (∀ r n p m,
        getLast ((TelemetryReporter.createTelemetryEvent env r n p m).measurements) k
          = some w))
    ∧ (∀ (ev : TelemetryEventImpl) (t : VsReporter), ev.reporter = some t →
        ev.send = ⟨[(ev.eventName, ev.properties, ev.measurements)], false⟩) := by
  refine ⟨fun k v h => ⟨?_, ?_, ?_, ?_, ?_, ?_⟩, fun k w h => ⟨?_, ?_, ?_, ?_, ?_, ?_⟩, ?_⟩
  · exact fun r view => mkEvent_common_property env _ _ _ _ h
  · exact fun r view action target source d => mkEvent_common_property env _ _ _ _ h
  · exact fun r m g => mkEvent_common_property env _ _ _ _ h
  · exact fun r view name ec et => mkEvent_common_property env _ _ _ _ h
  · intro r view name error incl ec et ev hok
    obtain ⟨P, rfl⟩ := createErrorEvent2_ok_shape env r view name error incl ec et ev hok
    exact mkEvent_common_property env _ _ _ _ h
  · exact fun r n p m => mkEvent_common_property env _ _ _ _ h
  · exact fun r view => mkEvent_common_measurement env _ _ _ _ h
  · exact fun r view action target source d => mkEvent_common_measurement env _ _ _ _ h
  · exact fun r m g => mkEvent_common_measurement env _ _ _ _ h
  · exact fun r view name ec et => mkEvent_common_measurement env _ _ _ _ h
  · intro r view name error incl ec et ev hok
    obtain ⟨P, rfl⟩ := createErrorEvent2_ok_shape env r view name error incl ec et ev hok
    exact mkEvent_common_measurement env _ _ _ _ h
  · exact fun r n p m => mkEvent_common_measurement env _ _ _ _ h
  · intro ev t ht
    obtain ⟨rep, n, p, m⟩ := ev
    subst ht
    rfl

/-- Witness for C2 amended: with `azdata` available at version 1.0, every
view event carries `common.adsversion = 1.0`. -/
theorem c2_amended_witness :
    getLast (commonProperties ⟨none, some "1.0"⟩) "common.adsversion"
      = some (.str "1.0")
    ∧ getLast ((TelemetryReporter.createViewEvent ⟨none, some "1.0"⟩ reporterA
        "home").properties) "common.adsversion" = some (.str "1.0") :=
  ⟨rfl, ((c2_amended_common_fields_assigned_last ⟨none, some "1.0"⟩).1
    "common.adsversion" (.str "1.0") rfl).1 reporterA "home"⟩
